import Mathlib

/-!
Shallow embedding of the Talkertive websocket bridge call session
(server.js, v2.2.2 variant: the per-connection handler installed by
wss.on connection), covering the session state, the tool dispatcher
(handleFunctionCall), the outcome finalizer (the stop branch of the
telephony message handler) and the event-step semantics of one call.

External side effects (SMS, backend HTTP, automation webhook, audio
forwarding) are recorded as an ordered effect list; responses of the
external backends are supplied as oracle data carried by the events.
SMS message bodies are recorded structurally (recipient plus the inputs
of the message template), since their final text goes through the
locale-dependent Date.toLocaleString. Transcript accumulation and log
output are omitted: no verified property reads them.
-/

namespace Talkertive

/-- JS truthiness of a nullable string value: null/undefined and the empty
string are falsy, every other string is truthy. -/
def truthy : Option String → Bool
  | none => false
  | some s => !(s == "")

/-- JS `a || b` on nullable strings. -/
def jsOr (a b : Option String) : Option String :=
  if truthy a then a else b

/-- JS `a || null` on nullable strings. -/
def jsOrNull (a : Option String) : Option String :=
  if truthy a then a else none

/-- JS `a || d` where the fallback d is a plain string literal. -/
def jsOrStr (a : Option String) (d : String) : String :=
  if truthy a then a.getD "" else d

/-- JS `a || d` on an optional number (0 is falsy). -/
def jsOrNat (a : Option Nat) (d : Nat) : Nat :=
  match a with
  | none => d
  | some n => if n = 0 then d else n

/-- Tenant settings returned by the settings/by-phone lookup. -/
structure UserSettings where
  businessName : Option String
  businessHours : Option String
  aiPrompt : Option String
  userId : Option String
deriving DecidableEq, Repr

/-- capturedLeadInfo: the mutable lead accumulator of one session. -/
structure LeadInfo where
  name : Option String
  email : Option String
  phone : Option String
  notes : Option String
  smsConsent : Bool
deriving DecidableEq, Repr

/-- Arguments of a capture_lead_info tool call; smsConsent distinguishes
undefined (field absent) from a supplied boolean. -/
structure LeadArgs where
  name : Option String
  email : Option String
  phone : Option String
  notes : Option String
  smsConsent : Option Bool
deriving DecidableEq, Repr

/-- Arguments of a book_appointment tool call (appointmentDetails). -/
structure BookArgs where
  customerName : Option String
  customerEmail : Option String
  customerPhone : Option String
  dateTime : Option String
  purpose : Option String
  timeZone : Option String
  duration : Option Nat
  smsConsent : Bool
deriving DecidableEq, Repr

/-- Body of a successful appointments/book backend response, with the
fields the bridge reads: result.appointment?.id, result.appointmentId,
result.calendarEventCreated, result.meetLink, result.hangoutLink and
result.appointment?.meetLink. -/
structure BookOkPayload where
  apptObjId : Option String
  topApptId : Option String
  calendarEventCreated : Bool
  meetLink : Option String
  hangoutLink : Option String
  apptMeetLink : Option String
deriving DecidableEq, Repr

/-- Outcome of the appointments/book backend call: ok-with-body, or
failure (a non-ok response and a thrown fetch both take the same
branch in the code: appointmentResult = null and a failure result). -/
inductive BackendBook
  | ok (p : BookOkPayload)
  | fail
deriving DecidableEq, Repr

/-- Order object of a successful orders/lookup backend response. -/
structure OrderInfo where
  orderId : String
  status : String
  customerName : Option String
  statusMessage : Option String
  estimatedDelivery : Option String
  trackingNumber : Option String
  items : Option (List String)
deriving DecidableEq, Repr

/-- Outcome of the orders/lookup backend call: ok, a non-ok response
(not found), or a thrown fetch (exn). -/
inductive OrderResp
  | ok (o : OrderInfo)
  | notFound
  | exn
deriving DecidableEq, Repr

/-- appointmentResult: what the session records after a successful
backend booking. -/
structure AppointmentResult where
  appointmentId : Option String
  calendarEventCreated : Bool
  meetLink : Option String
deriving DecidableEq, Repr

/-- Lifecycle of the openaiWs handle: null before start, CONNECTING
after the constructor, OPEN after the open event, closed afterwards. -/
inductive AiState
  | noSocket
  | connecting
  | sockOpen
  | sockClosed
deriving DecidableEq, Repr

/-- Payload of the telephony start event: msg.start.streamSid,
msg.start.callSid, the custom parameters and the top-level to/from. -/
structure StartInfo where
  streamSid : Option String
  callSid : Option String
  customTo : Option String
  customFrom : Option String
  startTo : Option String
  startFrom : Option String
deriving DecidableEq, Repr

/-- The per-connection mutable state of one call session. -/
structure Session where
  streamSid : Option String
  callSid : Option String
  toPhoneNumber : Option String
  fromPhoneNumber : Option String
  userSettings : Option UserSettings
  userId : Option String
  webhookSent : Bool
  capturedLeadInfo : LeadInfo
  appointmentIntent : Bool
  appointmentDetails : Option BookArgs
  appointmentResult : Option AppointmentResult
  aiState : AiState
deriving DecidableEq, Repr

/-- Session state at connection time. -/
def initSession : Session :=
  { streamSid := none
    callSid := none
    toPhoneNumber := none
    fromPhoneNumber := none
    userSettings := none
    userId := none
    webhookSent := false
    capturedLeadInfo :=
      { name := none, email := none, phone := none, notes := none, smsConsent := false }
    appointmentIntent := false
    appointmentDetails := none
    appointmentResult := none
    aiState := AiState.noSocket }

/-- Terminal business outcome kinds. -/
inductive Outcome
  | appointment_booked
  | lead_captured
  | call_completed
deriving DecidableEq, Repr

/-- Result payload a tool call hands back to the AI channel. -/
structure ToolResult where
  success : Bool
  message : String
  appointmentId : Option String := none
  calendarEventCreated : Option Bool := none
deriving DecidableEq, Repr

/-- Which dispatcher branch produced a tool output. -/
inductive ToolKind
  | lead
  | book
  | order
  | unknownTool
deriving DecidableEq, Repr

/-- Structured SMS body: the template and its inputs (final text is
produced through locale-dependent date formatting). -/
inductive SmsBody
  | leadFollowup (customerName businessName : String)
  | appointmentConfirm (customerName businessName dateTime timeZone : String)
deriving DecidableEq, Repr

/-- Observable side effects of the session, in emission order. -/
inductive Effect
  | forwardAudio (payload : String)
  | smsSend (toNum : String) (body : SmsBody)
  | callLogRequest (callSid : String)
  | leadUpdateRequest (userId callSid : String)
  | bookRequest (userId callSid customerName customerEmail customerPhone : String)
      (dateTime : Option String) (duration : Nat) (purpose : Option String)
      (timeZone : String)
  | orderLookupRequest (cleanId : String)
  | toolOutput (k : ToolKind) (r : ToolResult)
  | responseCreate
  | sessionUpdate
  | webhook (eventType : Outcome) (appointmentId : Option String)
  | callFinalizeRequest (callSid : String)
  | closeAi
  | sessionDeleted
deriving DecidableEq, Repr

/-- A tool-call request from the AI channel, with the oracle data of the
backend interaction it triggers. -/
inductive ToolCall
  | captureLead (a : LeadArgs)
  | bookAppointment (a : BookArgs) (b : BackendBook)
  | lookupOrder (orderId : Option String) (b : OrderResp)
  | unknown (fname : String)
deriving DecidableEq, Repr

/-- Dispatcher branch label of a tool call. -/
def toolKind : ToolCall → ToolKind
  | ToolCall.captureLead _ => ToolKind.lead
  | ToolCall.bookAppointment _ _ => ToolKind.book
  | ToolCall.lookupOrder _ _ => ToolKind.order
  | ToolCall.unknown _ => ToolKind.unknownTool

/-- Inbound events of one session: telephony lifecycle and media frames,
openaiWs lifecycle, and tool-call requests (which arrive on the open AI
socket). -/
inductive Event
  | start (info : StartInfo) (settings : Option UserSettings)
  | media (payload : String)
  | stop
  | aiOpen
  | aiClose
  | aiError
  | functionCall (tc : ToolCall)
  | twilioClose
deriving DecidableEq, Repr

/-- Field-by-field merge a capture_lead_info call performs on
capturedLeadInfo: truthy scalars overwrite, truthy notes append with a
newline, a supplied smsConsent overwrites. -/
def mergeLead (l : LeadInfo) (a : LeadArgs) : LeadInfo :=
  { name := if truthy a.name then a.name else l.name
    email := if truthy a.email then a.email else l.email
    phone := if truthy a.phone then a.phone else l.phone
    notes :=
      if truthy a.notes then
        if truthy l.notes then some (l.notes.getD "" ++ "\n" ++ a.notes.getD "")
        else a.notes
      else l.notes
    smsConsent :=
      match a.smsConsent with
      | some b => b
      | none => l.smsConsent }

/-- capture_lead_info branch of handleFunctionCall. -/
def handleCaptureLead (s : Session) (a : LeadArgs) :
    Session × ToolResult × List Effect :=
  let lead := mergeLead s.capturedLeadInfo a
  let customerPhone := jsOr lead.phone s.fromPhoneNumber
  let customerName := jsOrStr lead.name "there"
  let businessName := jsOrStr (s.userSettings.bind UserSettings.businessName) "us"
  let smsEffs :=
    if truthy customerPhone && lead.smsConsent then
      [Effect.smsSend (customerPhone.getD "") (SmsBody.leadFollowup customerName businessName)]
    else []
  let syncEffs :=
    if truthy s.userId && truthy s.callSid then
      [Effect.leadUpdateRequest (s.userId.getD "") (s.callSid.getD "")]
    else []
  ({ s with capturedLeadInfo := lead },
   { success := true
     message :=
       "Lead information captured successfully." ++
         (if lead.smsConsent then " Confirmation text sent." else "") },
   smsEffs ++ syncEffs)

/-- book_appointment branch of handleFunctionCall: records intent and
details first, sends the confirmation SMS (before the backend call),
then performs the backend booking when userId and callSid are truthy. -/
def handleBook (s : Session) (a : BookArgs) (b : BackendBook) :
    Session × ToolResult × List Effect :=
  let s1 := { s with appointmentIntent := true, appointmentDetails := some a }
  let lead := s1.capturedLeadInfo
  let customerName := jsOrStr (jsOr a.customerName lead.name) "Unknown"
  let customerEmail := jsOrStr (jsOr a.customerEmail lead.email) ""
  let customerPhone :=
    jsOrStr (jsOr a.customerPhone (jsOr lead.phone s1.fromPhoneNumber)) ""
  let tz := jsOrStr a.timeZone "America/New_York"
  let smsEffs :=
    if !(customerPhone == "") && a.smsConsent && truthy a.dateTime then
      [Effect.smsSend customerPhone
        (SmsBody.appointmentConfirm customerName
          (jsOrStr (s1.userSettings.bind UserSettings.businessName) "us")
          (a.dateTime.getD "") tz)]
    else []
  if truthy s1.userId && truthy s1.callSid then
    let req :=
      Effect.bookRequest (s1.userId.getD "") (s1.callSid.getD "")
        customerName customerEmail customerPhone a.dateTime
        (jsOrNat a.duration 30) a.purpose tz
    match b with
    | BackendBook.fail =>
        ({ s1 with appointmentResult := none },
         { success := false, message := "Failed to book appointment. Please try again." },
         smsEffs ++ [req])
    | BackendBook.ok p =>
        let ar : AppointmentResult :=
          { appointmentId := jsOrNull (jsOr p.apptObjId p.topApptId)
            calendarEventCreated := p.calendarEventCreated
            meetLink := jsOrNull (jsOr p.meetLink (jsOr p.hangoutLink p.apptMeetLink)) }
        ({ s1 with appointmentResult := some ar },
         { success := true
           message := "Appointment booked successfully. You\x27ll receive a confirmation shortly."
           appointmentId := ar.appointmentId
           calendarEventCreated := some ar.calendarEventCreated },
         smsEffs ++ [req])
  else
    ({ s1 with appointmentResult := none },
     { success := false, message := "Unable to book appointment at this time." },
     smsEffs)

/-- JS String.prototype.trim modelled on the character list: drop
whitespace characters from both ends. -/
def jsTrim (s : String) : String :=
  String.mk (((s.data.dropWhile Char.isWhitespace).reverse.dropWhile
    Char.isWhitespace).reverse)

/-- JS String.prototype.toUpperCase modelled on the character list. -/
def jsToUpper (s : String) : String :=
  String.mk (s.data.map Char.toUpper)

/-- Strip one leading hash symbol: the replace of the anchored regex. -/
def stripLeadingHash (t : String) : String :=
  match t.data with
  | '#' :: rest => String.mk rest
  | _ => t

/-- cleanOrderId: orderId?.toString().trim().toUpperCase() with empty
fallback, then one leading hash stripped. -/
def cleanOrderId (oid : Option String) : String :=
  let u :=
    match oid with
    | none => ""
    | some v => jsToUpper (jsTrim v)
  stripLeadingHash u

/-- Speakable not-found message of the order lookup. -/
def notFoundMsg (id : String) : String :=
  "I couldn\x27t find an order with ID " ++ id ++ ". Could you double-check the number?"

/-- Speakable transient-failure message of the order lookup. -/
def troubleMsg : String :=
  "I\x27m having trouble checking that order right now. Try again shortly."

/-- Speakable status summary built from a found order. -/
def orderSummary (o : OrderInfo) : String :=
  let m := "I found your order! Order " ++ o.orderId ++ " "
  let m := if truthy o.customerName then m ++ "for " ++ o.customerName.getD "" ++ " " else m
  let m := m ++ "is currently " ++ o.status ++ ". "
  let m := if truthy o.statusMessage then m ++ o.statusMessage.getD "" ++ ". " else m
  let m :=
    if truthy o.estimatedDelivery then
      m ++ "Estimated delivery: " ++ o.estimatedDelivery.getD "" ++ ". "
    else m
  let m :=
    if truthy o.trackingNumber then m ++ "Tracking number: " ++ o.trackingNumber.getD "" ++ ". "
    else m
  match o.items with
  | some items =>
      if items.length != 0 then m ++ "Items: " ++ String.intercalate ", " items ++ ". " else m
  | none => m

/-- lookup_order_status branch of handleFunctionCall. -/
def handleOrder (s : Session) (oid : Option String) (b : OrderResp) :
    Session × ToolResult × List Effect :=
  let cid := cleanOrderId oid
  let effs := [Effect.orderLookupRequest cid]
  match b with
  | OrderResp.ok o => (s, { success := true, message := orderSummary o }, effs)
  | OrderResp.notFound => (s, { success := false, message := notFoundMsg cid }, effs)
  | OrderResp.exn => (s, { success := false, message := troubleMsg }, effs)

/-- The tool dispatcher: handleFunctionCall of the session. Unknown
names fall through to a generic failure result. -/
def handleFunctionCall (s : Session) (tc : ToolCall) :
    Session × ToolResult × List Effect :=
  match tc with
  | ToolCall.captureLead a => handleCaptureLead s a
  | ToolCall.bookAppointment a b => handleBook s a b
  | ToolCall.lookupOrder oid b => handleOrder s oid b
  | ToolCall.unknown _ => (s, { success := false, message := "Unknown function" }, [])

/-- hasLeadInfo of the stop branch: name, email or notes truthy. -/
def hasLeadInfo (s : Session) : Bool :=
  truthy s.capturedLeadInfo.name || truthy s.capturedLeadInfo.email ||
    truthy s.capturedLeadInfo.notes

/-- hasLeadInfo as computed by the older variant in part_000, which
checks only name and email (notes do not count there). -/
def hasLeadInfoLegacy (s : Session) : Bool :=
  truthy s.capturedLeadInfo.name || truthy s.capturedLeadInfo.email

/-- hasIsoDateTime of the stop branch: appointmentDetails?.dateTime is
a truthy string. -/
def hasIsoDateTime (s : Session) : Bool :=
  truthy (s.appointmentDetails.bind BookArgs.dateTime)

/-- hasAppointmentId of the stop branch: appointmentResult?
.appointmentId is a truthy string. -/
def hasAppointmentId (s : Session) : Bool :=
  truthy (s.appointmentResult.bind AppointmentResult.appointmentId)

/-- The outcome precedence rule of the stop branch. -/
def selectOutcome (s : Session) : Outcome :=
  if s.appointmentIntent && hasIsoDateTime s && hasAppointmentId s then
    Outcome.appointment_booked
  else if hasLeadInfo s then Outcome.lead_captured
  else Outcome.call_completed

/-- One step of the session state machine on an inbound event. -/
def step (s : Session) (e : Event) : Session × List Effect :=
  match e with
  | Event.start info settings =>
      let toP := jsOr info.customTo info.startTo
      let fromP := jsOr info.customFrom info.startFrom
      let uid := jsOrNull (settings.bind UserSettings.userId)
      let s1 :=
        { s with streamSid := info.streamSid, callSid := info.callSid,
                 toPhoneNumber := toP, fromPhoneNumber := fromP,
                 userSettings := settings, userId := uid,
                 aiState := AiState.connecting }
      let logEffs :=
        if truthy uid && truthy info.callSid then
          [Effect.callLogRequest (info.callSid.getD "")]
        else []
      (s1, logEffs)
  | Event.media p =>
      (s, if s.aiState = AiState.sockOpen then [Effect.forwardAudio p] else [])
  | Event.stop =>
      if s.webhookSent then (s, [])
      else
        let outc := selectOutcome s
        let apptId :=
          if outc = Outcome.appointment_booked then
            s.appointmentResult.bind AppointmentResult.appointmentId
          else none
        let finEffs :=
          if truthy s.userId && truthy s.callSid then
            [Effect.callFinalizeRequest (s.callSid.getD "")]
          else []
        let closeEffs := if s.aiState = AiState.noSocket then [] else [Effect.closeAi]
        let s1 :=
          { s with webhookSent := true,
                   aiState := if s.aiState = AiState.noSocket then s.aiState
                              else AiState.sockClosed }
        (s1, Effect.webhook outc apptId :: (finEffs ++ closeEffs))
  | Event.aiOpen =>
      if s.aiState = AiState.connecting then
        ({ s with aiState := AiState.sockOpen }, [Effect.sessionUpdate])
      else (s, [])
  | Event.aiClose =>
      if s.aiState = AiState.noSocket then (s, [])
      else ({ s with aiState := AiState.sockClosed }, [])
  | Event.aiError => (s, [])
  | Event.functionCall tc =>
      if s.aiState = AiState.sockOpen then
        let t := handleFunctionCall s tc
        (t.1, t.2.2 ++ [Effect.toolOutput (toolKind tc) t.2.1, Effect.responseCreate])
      else (s, [])
  | Event.twilioClose =>
      let closeEffs := if s.aiState = AiState.noSocket then [] else [Effect.closeAi]
      let s1 :=
        { s with aiState := if s.aiState = AiState.noSocket then s.aiState
                            else AiState.sockClosed }
      (s1, Effect.sessionDeleted :: closeEffs)

/-- Run a whole event trace, accumulating effects in order. -/
def run (s : Session) : List Event → Session × List Effect
  | [] => (s, [])
  | e :: es =>
      let t1 := step s e
      let t2 := run t1.1 es
      (t2.1, t1.2 ++ t2.2)

/-- Is an effect the automation webhook post? -/
def isWebhook : Effect → Bool
  | Effect.webhook _ _ => true
  | _ => false

/-- Is an effect an appointment_booked automation webhook post? -/
def isBookedWebhook : Effect → Bool
  | Effect.webhook Outcome.appointment_booked _ => true
  | _ => false

/-- An appointment_booked webhook carries a truthy appointment id;
every other effect passes vacuously. -/
def bookedWebhookHasId : Effect → Bool
  | Effect.webhook Outcome.appointment_booked aid => truthy aid
  | Effect.webhook _ _ => true
  | _ => true

/-- Is an effect the backend appointment-booking request? -/
def isBookRequest : Effect → Bool
  | Effect.bookRequest _ _ _ _ _ _ _ _ _ => true
  | _ => false

/-- Is an effect the appointment-confirmation SMS? -/
def isApptSms : Effect → Bool
  | Effect.smsSend _ (SmsBody.appointmentConfirm _ _ _ _) => true
  | _ => false

/-- Every book-branch tool output is a failure result; other effects
pass vacuously. -/
def bookOutputsFail : Effect → Bool
  | Effect.toolOutput ToolKind.book r => !r.success
  | _ => true

/-- Is an event the telephony stop lifecycle event? -/
def isStop : Event → Bool
  | Event.stop => true
  | _ => false

/-- Did this event carry a book_appointment call whose backend
interaction succeeded and returned a truthy appointment identifier? -/
def bookSucceeded : Event → Bool
  | Event.functionCall (ToolCall.bookAppointment _ (BackendBook.ok p)) =>
      truthy (jsOr p.apptObjId p.topApptId)
  | _ => false

/-- Did this start event resolve tenant settings with a truthy userId? -/
def startHasUserId : Event → Bool
  | Event.start _ settings => truthy (jsOrNull (settings.bind UserSettings.userId))
  | _ => false

/-- Was the booking backend interaction an ok response? -/
def bookIsOk : BackendBook → Bool
  | BackendBook.ok _ => true
  | BackendBook.fail => false

/-- Did the booking backend interaction return a truthy durable id? -/
def bookOkWithId : BackendBook → Bool
  | BackendBook.ok p => truthy (jsOr p.apptObjId p.topApptId)
  | BackendBook.fail => false

/-- The audio payloads forwarded to the AI channel, in order. -/
def forwardedPayloads (l : List Effect) : List String :=
  l.filterMap fun e =>
    match e with
    | Effect.forwardAudio p => some p
    | _ => none

/-- Reference relay discipline: the media payloads that arrive while the
AI socket is in the OPEN state, in arrival order. -/
def openMediaPayloads : Session → List Event → List String
  | _, [] => []
  | s, e :: es =>
      (match e with
       | Event.media p => if s.aiState = AiState.sockOpen then [p] else []
       | _ => []) ++ openMediaPayloads (step s e).1 es

/-- Order-id normalization as the spec words it: trim whitespace,
convert to uppercase, strip one leading hash symbol. -/
def specNormalizeOrderId (raw : Option String) : String :=
  stripLeadingHash (jsToUpper (jsTrim (raw.getD "")))

/-- Reference result of the order lookup keyed on the backend response:
a status summary on success, the not-found message on a non-ok
response, the transient-trouble message on a thrown lookup. -/
def specOrderResult (cid : String) (b : OrderResp) : ToolResult :=
  match b with
  | OrderResp.ok o => { success := true, message := orderSummary o }
  | OrderResp.notFound => { success := false, message := notFoundMsg cid }
  | OrderResp.exn => { success := false, message := troubleMsg }

/-- Start payload used by the concrete scenario traces. -/
def demoStart : StartInfo :=
  { streamSid := some "ST100"
    callSid := some "CA100"
    customTo := some "+15550111"
    customFrom := some "+15550122"
    startTo := none
    startFrom := none }

/-- Tenant settings used by the concrete scenario traces. -/
def demoSettings : UserSettings :=
  { businessName := some "Acme Dental"
    businessHours := some "9-5"
    aiPrompt := none
    userId := some "user-17" }

/-- Booking arguments used by the concrete scenarios. -/
def demoBookArgs : BookArgs :=
  { customerName := some "Lee"
    customerEmail := none
    customerPhone := some "+15550100"
    dateTime := some "2025-03-01T10:00:00-05:00"
    purpose := some "consult"
    timeZone := none
    duration := none
    smsConsent := false }

/-- Booking arguments with SMS consent, used by the C5 scenario. -/
def demoBookArgsSms : BookArgs :=
  { demoBookArgs with smsConsent := true }

/-- An ok booking-backend body carrying no appointment identifier. -/
def okNoIdPayload : BookOkPayload :=
  { apptObjId := none
    topApptId := none
    calendarEventCreated := false
    meetLink := none
    hangoutLink := none
    apptMeetLink := none }

/-- An ok booking-backend body carrying a durable identifier. -/
def okWithIdPayload : BookOkPayload :=
  { apptObjId := some "A1"
    topApptId := none
    calendarEventCreated := true
    meetLink := none
    hangoutLink := none
    apptMeetLink := none }

/-- A session right after start resolved tenant settings. -/
def demoStarted : Session := (step initSession (Event.start demoStart (some demoSettings))).1

/-- Scenario trace: booking attempted, backend rejects, caller hangs
up with nothing else captured. -/
def failedBookingTrace : List Event :=
  [Event.start demoStart (some demoSettings), Event.aiOpen,
   Event.functionCall (ToolCall.bookAppointment demoBookArgs BackendBook.fail),
   Event.stop]

/-- Scenario trace: the AI side errors and closes first, then the
telephony socket closes without a stop event. -/
def aiDiesFirstTrace : List Event :=
  [Event.start demoStart (some demoSettings), Event.aiOpen,
   Event.aiError, Event.aiClose, Event.twilioClose]

/-- Scenario trace: a media frame arrives after start while the AI
socket is still connecting. -/
def earlyMediaTrace : List Event :=
  [Event.start demoStart (some demoSettings), Event.media "FRAME1"]

/-- Scenario trace: the tenant lookup found no settings, the AI still
books against an ok backend, the caller hangs up. -/
def noTenantTrace : List Event :=
  [Event.start demoStart none, Event.aiOpen,
   Event.functionCall (ToolCall.bookAppointment demoBookArgs (BackendBook.ok okWithIdPayload)),
   Event.stop]

/-- A session whose only captured lead data is a notes entry. -/
def notesOnlySession : Session :=
  { initSession with
      capturedLeadInfo :=
        { name := none, email := none, phone := none,
          notes := some "Asked about product sizes", smsConsent := false } }

/-- A session whose AI channel is open, for dispatcher scenarios. -/
def openAiSession : Session :=
  { demoStarted with aiState := AiState.sockOpen }

end Talkertive

namespace Talkertive

/-- jsOrNull preserves truthiness. -/
theorem truthy_jsOrNull (a : Option String) : truthy (jsOrNull a) = truthy a := by
  unfold jsOrNull
  cases h : truthy a
  · rfl
  · exact h

/-- All effects of the tool dispatcher satisfy any predicate that holds
on SMS sends, lead updates, booking requests and order lookups. -/
theorem hfc_all (s : Session) (tc : ToolCall) (p : Effect → Bool)
    (h1 : ∀ t b, p (Effect.smsSend t b) = true)
    (h2 : ∀ u c, p (Effect.leadUpdateRequest u c) = true)
    (h3 : ∀ u c n em ph dt d pu tz, p (Effect.bookRequest u c n em ph dt d pu tz) = true)
    (h4 : ∀ i, p (Effect.orderLookupRequest i) = true) :
    ((handleFunctionCall s tc).2.2).all p = true := by
  cases tc with
  | captureLead a =>
      simp only [handleFunctionCall, handleCaptureLead, List.all_append, Bool.and_eq_true]
      constructor <;> split <;> simp [h1, h2]
  | bookAppointment a b =>
      cases b <;> simp only [handleFunctionCall, handleBook] <;> split <;>
        simp only [List.all_append, List.all_cons, List.all_nil, Bool.and_eq_true] <;>
        first
          | (constructor <;> first | (split <;> simp [h1, h3]) | simp [h1, h3])
          | (split <;> simp [h1, h3])
  | lookupOrder oid b =>
      cases b <;> simp [handleFunctionCall, handleOrder, h4]
  | unknown fname => simp [handleFunctionCall]

/-- The dispatcher never changes the webhook guard. -/
theorem hfc_webhookSent (s : Session) (tc : ToolCall) :
    (handleFunctionCall s tc).1.webhookSent = s.webhookSent := by
  cases tc with
  | captureLead a => simp [handleFunctionCall, handleCaptureLead]
  | bookAppointment a b =>
      cases b <;> simp only [handleFunctionCall, handleBook] <;> split <;> rfl
  | lookupOrder oid b => cases b <;> simp [handleFunctionCall, handleOrder]
  | unknown fname => simp [handleFunctionCall]

end Talkertive

namespace Talkertive

/-- The dispatcher never changes the resolved tenant user id. -/
theorem hfc_userId (s : Session) (tc : ToolCall) :
    (handleFunctionCall s tc).1.userId = s.userId := by
  cases tc with
  | captureLead a => simp [handleFunctionCall, handleCaptureLead]
  | bookAppointment a b =>
      cases b <;> simp only [handleFunctionCall, handleBook] <;> split <;> rfl
  | lookupOrder oid b => cases b <;> simp [handleFunctionCall, handleOrder]
  | unknown fname => simp [handleFunctionCall]

/-- The dispatcher emits no automation webhook. -/
theorem hfc_countP_webhook (s : Session) (tc : ToolCall) :
    ((handleFunctionCall s tc).2.2).countP isWebhook = 0 := by
  rw [List.countP_eq_zero]
  intro a ha
  have h := hfc_all s tc (fun e => !isWebhook e)
    (by intro t b; rfl) (by intro u c; rfl)
    (by intro u c n em ph dt d pu tz; rfl) (by intro i; rfl)
  rw [List.all_eq_true] at h
  have := h a ha
  simp only [Bool.not_eq_true'] at this
  simp [this]

/-- Full characterization of the book_appointment branch: intent is
recorded unconditionally; the result is a success exactly when the
backend was reached and answered ok; a durable appointment id is
recorded exactly when the backend was reached and returned a truthy
identifier. -/
theorem handleBook_char (s : Session) (a : BookArgs) (b : BackendBook) :
    (handleBook s a b).1.appointmentIntent = true
    ∧ (handleBook s a b).2.1.success = (truthy s.userId && truthy s.callSid && bookIsOk b)
    ∧ hasAppointmentId (handleBook s a b).1
        = (truthy s.userId && truthy s.callSid && bookOkWithId b) := by
  cases b with
  | fail =>
      simp only [handleBook]
      split
      · next h =>
          simp only [hasAppointmentId, bookIsOk, bookOkWithId]
          simp [h, truthy]
      · next h =>
          simp only [hasAppointmentId, bookIsOk, bookOkWithId]
          simp only [Bool.not_eq_true] at h
          simp [h, truthy]
  | ok p =>
      simp only [handleBook]
      split
      · next h =>
          simp only [hasAppointmentId, bookIsOk, bookOkWithId]
          simp [h, truthy_jsOrNull]
      · next h =>
          simp only [Bool.not_eq_true] at h
          refine ⟨rfl, ?_, ?_⟩
          · simp only [bookIsOk, Bool.and_true]
            exact h.symm
          · simp only [hasAppointmentId, bookOkWithId]
            rw [h]
            rfl

end Talkertive

namespace Talkertive

/-- One step adds webhook effects exactly when it flips the guard. -/
theorem step_webhook_count (s : Session) (e : Event) :
    ((step s e).2.countP isWebhook) + (if s.webhookSent then 1 else 0)
      = (if (step s e).1.webhookSent then 1 else 0) := by
  cases e with
  | start info settings =>
      simp only [step]
      split <;> simp [isWebhook]
  | media p =>
      simp only [step]
      split <;> simp [isWebhook]
  | stop =>
      simp only [step]
      split
      · next h => simp [h]
      · next h =>
          simp only [Bool.not_eq_true] at h
          simp only [h, List.countP_cons, List.countP_append, isWebhook]
          split <;> split <;> simp [isWebhook]
  | aiOpen =>
      simp only [step]
      split <;> simp [isWebhook]
  | aiClose =>
      simp only [step]
      split <;> simp [isWebhook]
  | aiError => simp [step, isWebhook]
  | functionCall tc =>
      simp only [step]
      split
      · simp [List.countP_append, hfc_countP_webhook, hfc_webhookSent,
              List.countP_cons, isWebhook]
      · simp [isWebhook]
  | twilioClose =>
      simp only [step]
      split <;> simp [isWebhook]

/-- Trace-level webhook accounting. -/
theorem run_webhook_count (es : List Event) : ∀ s : Session,
    ((run s es).2.countP isWebhook) + (if s.webhookSent then 1 else 0)
      = (if (run s es).1.webhookSent then 1 else 0) := by
  induction es with
  | nil => intro s; simp [run]
  | cons e es ih =>
      intro s
      simp only [run, List.countP_append]
      have h1 := step_webhook_count s e
      have h2 := ih (step s e).1
      omega

/-- A non-stop event never changes the webhook guard. -/
theorem step_nonstop_webhookSent (s : Session) (e : Event) (h : isStop e = false) :
    (step s e).1.webhookSent = s.webhookSent := by
  cases e with
  | start info settings => rfl
  | media p => rfl
  | stop => simp [isStop] at h
  | aiOpen =>
      simp only [step]
      split <;> rfl
  | aiClose =>
      simp only [step]
      split <;> rfl
  | aiError => rfl
  | functionCall tc =>
      simp only [step]
      split
      · exact hfc_webhookSent s tc
      · rfl
  | twilioClose => rfl

/-- Without a stop event neither the guard flips nor a webhook posts. -/
theorem run_nostop (es : List Event) : ∀ s : Session,
    es.all (fun e => !isStop e) = true →
    (run s es).1.webhookSent = s.webhookSent
    ∧ (run s es).2.countP isWebhook = 0 := by
  induction es with
  | nil => intro s _; simp [run]
  | cons e es ih =>
      intro s h
      simp only [List.all_cons, Bool.and_eq_true, Bool.not_eq_true'] at h
      have hs := step_nonstop_webhookSent s e h.1
      have hc := step_webhook_count s e
      have ih2 := ih (step s e).1 h.2
      constructor
      · simp only [run]
        rw [ih2.1, hs]
      · simp only [run, List.countP_append]
        rw [hs] at hc
        have hz : (step s e).2.countP isWebhook = 0 := by omega
        rw [hz, ih2.2]

end Talkertive

namespace Talkertive

/-- Without a recorded durable appointment id the finalizer picks by
lead data alone. -/
theorem selectOutcome_of_not_confirmed {s : Session}
    (hs : hasAppointmentId s = false) :
    selectOutcome s
      = if hasLeadInfo s then Outcome.lead_captured else Outcome.call_completed := by
  unfold selectOutcome
  rw [hs]
  simp

/-- The appointment_booked outcome entails a recorded durable id. -/
theorem selectOutcome_booked_confirmed {s : Session}
    (h : selectOutcome s = Outcome.appointment_booked) :
    hasAppointmentId s = true := by
  by_cases hs : hasAppointmentId s = true
  · exact hs
  · simp only [Bool.not_eq_true] at hs
    rw [selectOutcome_of_not_confirmed hs] at h
    split at h <;> cases h

/-- Every webhook effect a step emits that reports appointment_booked
carries a truthy appointment id. -/
theorem step_booked_id (s : Session) (e : Event) :
    (step s e).2.all bookedWebhookHasId = true := by
  cases e with
  | start info settings =>
      simp only [step]
      split <;> simp [bookedWebhookHasId]
  | media p =>
      simp only [step]
      split <;> simp [bookedWebhookHasId]
  | stop =>
      simp only [step]
      split
      · simp
      · next h =>
          simp only [List.all_cons, List.all_append, Bool.and_eq_true]
          refine ⟨?_, ?_, ?_⟩
          · cases houtc : selectOutcome s with
            | appointment_booked =>
                have hid := selectOutcome_booked_confirmed houtc
                simp only [houtc, bookedWebhookHasId]
                simp only [hasAppointmentId] at hid
                simp [hid]
            | lead_captured => simp [houtc, bookedWebhookHasId]
            | call_completed => simp [houtc, bookedWebhookHasId]
          · split <;> simp [bookedWebhookHasId]
          · split <;> simp [bookedWebhookHasId]
  | aiOpen =>
      simp only [step]
      split <;> simp [bookedWebhookHasId]
  | aiClose =>
      simp only [step]
      split <;> simp [bookedWebhookHasId]
  | aiError => simp [step]
  | functionCall tc =>
      simp only [step]
      split
      · simp only [List.all_append, List.all_cons, List.all_nil, Bool.and_eq_true]
        refine ⟨?_, by simp [bookedWebhookHasId], by simp [bookedWebhookHasId], trivial⟩
        exact hfc_all s tc bookedWebhookHasId
          (by intro t b; rfl) (by intro u c; rfl)
          (by intro u c n em ph dt d pu tz; rfl) (by intro i; rfl)
      · simp
  | twilioClose =>
      simp only [step]
      split <;> simp [bookedWebhookHasId]

/-- Trace-level: every booked webhook carries a truthy id. -/
theorem run_booked_id (es : List Event) : ∀ s : Session,
    (run s es).2.all bookedWebhookHasId = true := by
  induction es with
  | nil => intro s; simp [run]
  | cons e es ih =>
      intro s
      simp only [run, List.all_append, Bool.and_eq_true]
      exact ⟨step_booked_id s e, ih (step s e).1⟩

end Talkertive

namespace Talkertive

/-- bookSucceeded of a book-call event is the backend success flag. -/
theorem bookSucceeded_eq (a : BookArgs) (b : BackendBook) :
    bookSucceeded (Event.functionCall (ToolCall.bookAppointment a b)) = bookOkWithId b := by
  cases b <;> rfl

/-- The capture_lead_info branch leaves the appointment record alone. -/
theorem handleCaptureLead_apptResult (s : Session) (a : LeadArgs) :
    (handleCaptureLead s a).1.appointmentResult = s.appointmentResult := rfl

/-- The order branch leaves the session state alone. -/
theorem handleOrder_state (s : Session) (oid : Option String) (b : OrderResp) :
    (handleOrder s oid b).1 = s := by
  cases b <;> rfl

/-- A step on an event with no successful backend booking preserves the
absence of a recorded durable appointment id. -/
theorem step_no_book_success (s : Session) (e : Event)
    (he : bookSucceeded e = false) (hs : hasAppointmentId s = false) :
    hasAppointmentId (step s e).1 = false := by
  cases e with
  | start info settings => exact hs
  | media p => exact hs
  | stop =>
      simp only [step]
      split
      · exact hs
      · exact hs
  | aiOpen =>
      simp only [step]
      split <;> exact hs
  | aiClose =>
      simp only [step]
      split <;> exact hs
  | aiError => exact hs
  | functionCall tc =>
      simp only [step]
      split
      · cases tc with
        | captureLead a =>
            simp only [handleFunctionCall]
            simpa [hasAppointmentId, handleCaptureLead_apptResult] using hs
        | bookAppointment a b =>
            simp only [handleFunctionCall]
            rw [(handleBook_char s a b).2.2]
            rw [bookSucceeded_eq] at he
            simp [he]
        | lookupOrder oid b =>
            simp only [handleFunctionCall]
            rw [show hasAppointmentId (handleOrder s oid b).1 = hasAppointmentId s from by
              rw [handleOrder_state]]
            exact hs
        | unknown fname => exact hs
      · exact hs
  | twilioClose => exact hs

/-- A step from a state with no recorded durable id emits no
appointment_booked webhook. -/
theorem step_not_confirmed_no_booked (s : Session) (e : Event)
    (hs : hasAppointmentId s = false) :
    (step s e).2.all (fun eff => !isBookedWebhook eff) = true := by
  cases e with
  | start info settings =>
      simp only [step]
      split <;> simp [isBookedWebhook]
  | media p =>
      simp only [step]
      split <;> simp [isBookedWebhook]
  | stop =>
      simp only [step]
      split
      · simp
      · next h =>
          simp only [List.all_cons, List.all_append, Bool.and_eq_true]
          refine ⟨?_, ?_, ?_⟩
          · rw [selectOutcome_of_not_confirmed hs]
            split <;> simp [isBookedWebhook, selectOutcome_of_not_confirmed, hs]
          · split <;> simp [isBookedWebhook]
          · split <;> simp [isBookedWebhook]
  | aiOpen =>
      simp only [step]
      split <;> simp [isBookedWebhook]
  | aiClose =>
      simp only [step]
      split <;> simp [isBookedWebhook]
  | aiError => simp [step]
  | functionCall tc =>
      simp only [step]
      split
      · simp only [List.all_append, List.all_cons, List.all_nil, Bool.and_eq_true]
        refine ⟨?_, by simp [isBookedWebhook], by simp [isBookedWebhook], trivial⟩
        exact hfc_all s tc (fun eff => !isBookedWebhook eff)
          (by intro t b; rfl) (by intro u c; rfl)
          (by intro u c n em ph dt d pu tz; rfl) (by intro i; rfl)
      · simp
  | twilioClose =>
      simp only [step]
      split <;> simp [isBookedWebhook]

/-- Trace-level: when every backend booking interaction failed or
returned no identifier, no durable id is ever recorded and no
appointment_booked webhook is ever posted. -/
theorem run_no_book_success (es : List Event) : ∀ s : Session,
    es.all (fun e => !bookSucceeded e) = true →
    hasAppointmentId s = false →
    hasAppointmentId (run s es).1 = false
    ∧ (run s es).2.all (fun eff => !isBookedWebhook eff) = true := by
  induction es with
  | nil => intro s _ hs; exact ⟨hs, by simp [run]⟩
  | cons e es ih =>
      intro s h hs
      simp only [List.all_cons, Bool.and_eq_true, Bool.not_eq_true'] at h
      have hstep := step_no_book_success s e h.1 hs
      have ih2 := ih (step s e).1 h.2 hstep
      refine ⟨ih2.1, ?_⟩
      simp only [run, List.all_append, Bool.and_eq_true]
      exact ⟨step_not_confirmed_no_booked s e hs, ih2.2⟩

end Talkertive

namespace Talkertive

/-- The dispatcher forwards no audio. -/
theorem hfc_no_forward (s : Session) (tc : ToolCall) :
    forwardedPayloads (handleFunctionCall s tc).2.2 = [] := by
  rw [forwardedPayloads, List.filterMap_eq_nil_iff]
  intro a ha
  have h := hfc_all s tc
    (fun e => (match e with | Effect.forwardAudio p => some p | _ => none).isNone)
    (by intro t b; rfl) (by intro u c; rfl)
    (by intro u c n em ph dt d pu tz; rfl) (by intro i; rfl)
  rw [List.all_eq_true] at h
  have := h a ha
  exact Option.isNone_iff_eq_none.mp (by simpa using this)

/-- Audio forwarded by one step: exactly an arriving media frame while
the AI socket is OPEN. -/
theorem step_forward (s : Session) (e : Event) :
    forwardedPayloads (step s e).2
      = (match e with
         | Event.media p => if s.aiState = AiState.sockOpen then [p] else []
         | _ => []) := by
  cases e with
  | start info settings =>
      simp only [step]
      split <;> simp [forwardedPayloads]
  | media p =>
      simp only [step]
      split <;> simp [forwardedPayloads]
  | stop =>
      simp only [step]
      split
      · simp [forwardedPayloads]
      · simp only [forwardedPayloads, List.filterMap_cons, List.filterMap_append]
        split <;> split <;> simp [forwardedPayloads]
  | aiOpen =>
      simp only [step]
      split <;> simp [forwardedPayloads]
  | aiClose =>
      simp only [step]
      split <;> simp [forwardedPayloads]
  | aiError => simp [step, forwardedPayloads]
  | functionCall tc =>
      simp only [step]
      split
      · have h1 := hfc_no_forward s tc
        simp only [forwardedPayloads, List.filterMap_append] at h1 ⊢
        rw [h1]
        simp
      · simp [forwardedPayloads]
  | twilioClose =>
      simp only [step]
      split <;> simp [forwardedPayloads]

/-- forwardedPayloads distributes over effect concatenation. -/
theorem forwardedPayloads_append (l1 l2 : List Effect) :
    forwardedPayloads (l1 ++ l2) = forwardedPayloads l1 ++ forwardedPayloads l2 := by
  simp [forwardedPayloads, List.filterMap_append]

/-- A step with a non-truthy resolved userId keeps it non-truthy unless
a start event resolves a tenant with a truthy userId. -/
theorem step_userId_false (s : Session) (e : Event)
    (he : startHasUserId e = false) (hs : truthy s.userId = false) :
    truthy (step s e).1.userId = false := by
  cases e with
  | start info settings => exact he
  | media p => exact hs
  | stop =>
      simp only [step]
      split <;> exact hs
  | aiOpen =>
      simp only [step]
      split <;> exact hs
  | aiClose =>
      simp only [step]
      split <;> exact hs
  | aiError => exact hs
  | functionCall tc =>
      simp only [step]
      split
      · rw [hfc_userId]; exact hs
      · exact hs
  | twilioClose => exact hs

/-- With a non-truthy resolved userId, no step records a durable
appointment id. -/
theorem step_noUser_apptId (s : Session) (e : Event)
    (hs : truthy s.userId = false) (ha : hasAppointmentId s = false) :
    hasAppointmentId (step s e).1 = false := by
  cases e with
  | start info settings => exact ha
  | media p => exact ha
  | stop =>
      simp only [step]
      split <;> exact ha
  | aiOpen =>
      simp only [step]
      split <;> exact ha
  | aiClose =>
      simp only [step]
      split <;> exact ha
  | aiError => exact ha
  | functionCall tc =>
      simp only [step]
      split
      · cases tc with
        | captureLead a =>
            simp only [handleFunctionCall]
            simpa [hasAppointmentId, handleCaptureLead_apptResult] using ha
        | bookAppointment a b =>
            simp only [handleFunctionCall]
            rw [(handleBook_char s a b).2.2]
            simp [hs]
        | lookupOrder oid b =>
            simp only [handleFunctionCall]
            rw [show hasAppointmentId (handleOrder s oid b).1 = hasAppointmentId s from by
              rw [handleOrder_state]]
            exact ha
        | unknown fname => exact ha
      · exact ha
  | twilioClose => exact ha

/-- With a non-truthy resolved userId the dispatcher emits no backend
booking request. -/
theorem hfc_noUser_noBookRequest (s : Session) (tc : ToolCall)
    (hs : truthy s.userId = false) :
    ((handleFunctionCall s tc).2.2).all (fun e => !isBookRequest e) = true := by
  cases tc with
  | captureLead a =>
      simp only [handleFunctionCall, handleCaptureLead, List.all_append, Bool.and_eq_true]
      constructor <;> split <;> simp [isBookRequest]
  | bookAppointment a b =>
      cases b <;> simp only [handleFunctionCall, handleBook] <;>
        rw [show (truthy s.userId && truthy s.callSid) = false by simp [hs]] <;>
        rw [if_neg (by simp)] <;> (split <;> rfl)
  | lookupOrder oid b =>
      cases b <;> simp [handleFunctionCall, handleOrder, isBookRequest]
  | unknown fname => simp [handleFunctionCall]

/-- With a non-truthy resolved userId each step emits no
booking request and only failed book-branch tool outputs. -/
theorem step_noUser_effects (s : Session) (e : Event)
    (hs : truthy s.userId = false) :
    (step s e).2.all (fun eff => !isBookRequest eff) = true
    ∧ (step s e).2.all bookOutputsFail = true := by
  cases e with
  | start info settings =>
      simp only [step]
      constructor <;> (split <;> simp [isBookRequest, bookOutputsFail])
  | media p =>
      simp only [step]
      constructor <;> (split <;> simp [isBookRequest, bookOutputsFail])
  | stop =>
      simp only [step]
      constructor <;>
        (split
         · simp
         · simp only [List.all_cons, List.all_append, Bool.and_eq_true]
           refine ⟨by simp [isBookRequest, bookOutputsFail], ?_, ?_⟩ <;>
             (split <;> simp [isBookRequest, bookOutputsFail]))
  | aiOpen =>
      simp only [step]
      constructor <;> (split <;> simp [isBookRequest, bookOutputsFail])
  | aiClose =>
      simp only [step]
      constructor <;> (split <;> simp [isBookRequest, bookOutputsFail])
  | aiError => constructor <;> simp [step]
  | functionCall tc =>
      simp only [step]
      constructor
      · split
        · simp only [List.all_append, List.all_cons, List.all_nil, Bool.and_eq_true]
          refine ⟨hfc_noUser_noBookRequest s tc hs, by simp [isBookRequest],
            by simp [isBookRequest], trivial⟩
        · simp
      · split
        · simp only [List.all_append, List.all_cons, List.all_nil, Bool.and_eq_true]
          refine ⟨?_, ?_, by simp [bookOutputsFail], trivial⟩
          · exact hfc_all s tc bookOutputsFail
              (by intro t b; rfl) (by intro u c; rfl)
              (by intro u c n em ph dt d pu tz; rfl) (by intro i; rfl)
          · cases tc with
            | captureLead a => simp [toolKind, bookOutputsFail]
            | bookAppointment a b =>
                simp only [toolKind, bookOutputsFail]
                rw [show (handleFunctionCall s (ToolCall.bookAppointment a b)).2.1.success
                      = (truthy s.userId && truthy s.callSid && bookIsOk b) from
                    (handleBook_char s a b).2.1]
                simp [hs]
            | lookupOrder oid b => simp [toolKind, bookOutputsFail]
            | unknown fname => simp [toolKind, bookOutputsFail]
        · simp
  | twilioClose =>
      simp only [step]
      constructor <;>
        simp only [List.all_cons, Bool.and_eq_true] <;>
        refine ⟨by simp [isBookRequest, bookOutputsFail], ?_⟩ <;>
        (split <;> simp [isBookRequest, bookOutputsFail])

end Talkertive

namespace Talkertive

/-- Trace-level consequences of a call with no resolved tenant userId. -/
theorem run_noUser (es : List Event) : ∀ s : Session,
    es.all (fun e => !startHasUserId e) = true →
    truthy s.userId = false → hasAppointmentId s = false →
    (run s es).2.all (fun eff => !isBookRequest eff) = true
    ∧ (run s es).2.all bookOutputsFail = true
    ∧ hasAppointmentId (run s es).1 = false
    ∧ (run s es).2.all (fun eff => !isBookedWebhook eff) = true := by
  induction es with
  | nil =>
      intro s _ _ ha
      exact ⟨by simp [run], by simp [run], ha, by simp [run]⟩
  | cons e es ih =>
      intro s h hu ha
      simp only [List.all_cons, Bool.and_eq_true, Bool.not_eq_true'] at h
      have hu2 := step_userId_false s e h.1 hu
      have ha2 := step_noUser_apptId s e hu ha
      have heff := step_noUser_effects s e hu
      have hbw := step_not_confirmed_no_booked s e ha
      have ih2 := ih (step s e).1 h.2 hu2 ha2
      refine ⟨?_, ?_, ih2.2.2.1, ?_⟩ <;>
        simp only [run, List.all_append, Bool.and_eq_true]
      · exact ⟨heff.1, ih2.1⟩
      · exact ⟨heff.2, ih2.2.1⟩
      · exact ⟨hbw, ih2.2.2.2⟩

/-- Claim C1: the outcome finalizer selects appointment_booked only for
a backend-confirmed booking with a durable appointment identifier:
every appointment_booked webhook carries a truthy id; if every backend
booking interaction of the call failed or returned no identifier, no
appointment_booked webhook is posted; and without a recorded durable id
the precedence falls through to lead_captured or call_completed. -/
theorem booked_only_when_confirmed (es : List Event) :
    ((run initSession es).2.all bookedWebhookHasId = true)
    ∧ (es.all (fun e => !bookSucceeded e) = true →
        (run initSession es).2.all (fun eff => !isBookedWebhook eff) = true)
    ∧ (∀ s : Session, hasAppointmentId s = false →
        selectOutcome s
          = if hasLeadInfo s then Outcome.lead_captured else Outcome.call_completed) := by
  refine ⟨run_booked_id es initSession, ?_, ?_⟩
  · intro h
    exact (run_no_book_success es initSession h rfl).2
  · intro s hs
    exact selectOutcome_of_not_confirmed hs

/-- Witness for C1 on the failed-booking hang-up scenario. -/
theorem booked_only_when_confirmed_witness :
    ((run initSession failedBookingTrace).2.all (fun eff => !isBookedWebhook eff) = true)
    ∧ (selectOutcome (run initSession failedBookingTrace).1
        = if hasLeadInfo (run initSession failedBookingTrace).1 then Outcome.lead_captured
          else Outcome.call_completed) :=
  ⟨(booked_only_when_confirmed failedBookingTrace).2.1 (by decide),
   (booked_only_when_confirmed failedBookingTrace).2.2
     (run initSession failedBookingTrace).1 (by decide)⟩

/-- Claim C2: the terminal outcome webhook is posted at most once per
call, and exactly when the guard has flipped. -/
theorem terminal_outcome_at_most_once (es : List Event) :
    ((run initSession es).2.countP isWebhook ≤ 1)
    ∧ ((run initSession es).2.countP isWebhook
        = if (run initSession es).1.webhookSent then 1 else 0) := by
  have h := run_webhook_count es initSession
  have h0 : (if initSession.webhookSent then 1 else 0) = 0 := rfl
  rw [h0, Nat.add_zero] at h
  refine ⟨?_, h⟩
  rw [h]
  split <;> omega

/-- Counterexample to claim C3: when the AI side errors and closes and
then the telephony socket closes without a stop event, the channels are
torn down but no terminal outcome is computed or emitted. -/
theorem ai_termination_does_not_finalize :
    ((run initSession aiDiesFirstTrace).2.countP isWebhook = 0)
    ∧ ((run initSession aiDiesFirstTrace).1.webhookSent = false)
    ∧ ((run initSession aiDiesFirstTrace).2.countP
        (fun eff => eff == Effect.closeAi) = 1) := by
  decide

/-- Claim C3 (amended): the finalization path runs only on the
telephony stop event; AI-channel error or close and the bare telephony
socket close never emit an outcome nor flip the guard. -/
theorem outcome_emitted_only_on_stop (es : List Event)
    (h : es.all (fun e => !isStop e) = true) :
    ((run initSession es).2.countP isWebhook = 0)
    ∧ ((run initSession es).1.webhookSent = false) := by
  have hh := run_nostop es initSession h
  exact ⟨hh.2, hh.1⟩

/-- Witness for the amended C3 on the AI-dies-first scenario. -/
theorem outcome_emitted_only_on_stop_witness :
    ((run initSession aiDiesFirstTrace).2.countP isWebhook = 0)
    ∧ ((run initSession aiDiesFirstTrace).1.webhookSent = false) :=
  outcome_emitted_only_on_stop aiDiesFirstTrace (by decide)

/-- Claim C4 (amended): book_appointment records intent and details
unconditionally before the backend interaction; the tool result is a
success exactly when the backend was reached and answered ok (so a
success is returned even when the ok response carries no identifier);
a durable appointment id is recorded exactly when the backend was
reached and returned a truthy identifier. -/
theorem book_intent_immediate (s : Session) (a : BookArgs) (b : BackendBook) :
    (handleBook s a b).1.appointmentIntent = true
    ∧ (handleBook s a b).1.appointmentDetails = some a
    ∧ (handleBook s a b).2.1.success = (truthy s.userId && truthy s.callSid && bookIsOk b)
    ∧ hasAppointmentId (handleBook s a b).1
        = (truthy s.userId && truthy s.callSid && bookOkWithId b) := by
  have h := handleBook_char s a b
  refine ⟨h.1, ?_, h.2.1, h.2.2⟩
  cases b <;> simp only [handleBook] <;> split <;> rfl

/-- Counterexample to claim C4: an ok backend response carrying no
appointment identifier yields a success tool result although no durable
id was recorded. -/
theorem booking_without_id_reports_success :
    ((handleBook demoStarted demoBookArgs (BackendBook.ok okNoIdPayload)).2.1.success = true)
    ∧ (hasAppointmentId
        (handleBook demoStarted demoBookArgs (BackendBook.ok okNoIdPayload)).1 = false) := by
  decide

/-- Claim C5 (amended): the confirmation SMS of book_appointment is
emitted exactly when a customer phone is available, consent was given
and a dateTime was provided, independent of the backend outcome, and it
precedes every other effect of the call, in particular the backend
booking request. -/
theorem confirmation_sms_before_backend (s : Session) (a : BookArgs) (b : BackendBook) :
    ((handleBook s a b).2.2.any isApptSms
      = (!(jsOrStr (jsOr a.customerPhone (jsOr s.capturedLeadInfo.phone s.fromPhoneNumber)) "" == "")
          && a.smsConsent && truthy a.dateTime))
    ∧ (((handleBook s a b).2.2.take 1).any isApptSms
      = (!(jsOrStr (jsOr a.customerPhone (jsOr s.capturedLeadInfo.phone s.fromPhoneNumber)) "" == "")
          && a.smsConsent && truthy a.dateTime)) := by
  cases b <;> simp only [handleBook] <;> split <;>
    (constructor <;> (split <;> (next h => simp [isApptSms, h])))

/-- Counterexample to claim C5: with consent, phone and dateTime, the
confirmation SMS is emitted although the backend booking call fails. -/
theorem sms_sent_for_failed_booking :
    ((handleBook demoStarted demoBookArgsSms BackendBook.fail).2.2.any isApptSms = true)
    ∧ ((handleBook demoStarted demoBookArgsSms BackendBook.fail).2.1.success = false) := by
  decide

/-- Claim C6: a call whose only captured lead data is a non-empty notes
entry, with no confirmed appointment, finalizes as lead_captured. -/
theorem notes_only_selects_lead_captured (s : Session)
    (_hname : truthy s.capturedLeadInfo.name = false)
    (_hemail : truthy s.capturedLeadInfo.email = false)
    (hnotes : truthy s.capturedLeadInfo.notes = true)
    (hconf : hasAppointmentId s = false)
    (hsent : s.webhookSent = false) :
    selectOutcome s = Outcome.lead_captured
    ∧ Effect.webhook Outcome.lead_captured none ∈ (step s Event.stop).2 := by
  have hlead : hasLeadInfo s = true := by simp [hasLeadInfo, hnotes]
  have hout : selectOutcome s = Outcome.lead_captured := by
    rw [selectOutcome_of_not_confirmed hconf, hlead]
    simp
  refine ⟨hout, ?_⟩
  simp only [step, hsent, Bool.false_eq_true, if_false, hout]
  simp

/-- Witness for C6 on a notes-only session. -/
theorem notes_only_selects_lead_captured_witness :
    selectOutcome notesOnlySession = Outcome.lead_captured
    ∧ Effect.webhook Outcome.lead_captured none ∈ (step notesOnlySession Event.stop).2 :=
  notes_only_selects_lead_captured notesOnlySession
    (by decide) (by decide) (by decide) (by decide) (by decide)

/-- The older variant in part_000 computes the lead check from name and
email only, so a notes-only lead does not count as captured there. -/
theorem legacy_lead_check_ignores_notes :
    hasLeadInfoLegacy notesOnlySession = false
    ∧ hasLeadInfo notesOnlySession = true := by
  decide

/-- Counterexample to claim C7: a media frame arriving after start (the
start was processed: stream id recorded) is dropped because the AI
socket has not reached the OPEN state yet. -/
theorem frame_after_start_dropped :
    ((run initSession earlyMediaTrace).1.streamSid = some "ST100")
    ∧ (forwardedPayloads (run initSession earlyMediaTrace).2 = []) := by
  decide

/-- Claim C7 (amended): audio relay forwards exactly the media frames
that arrive while the AI socket is OPEN, in arrival order; every frame
arriving while the socket is absent, still connecting, or closed is
dropped. -/
theorem media_relay_discipline (s : Session) (es : List Event) :
    forwardedPayloads (run s es).2 = openMediaPayloads s es := by
  induction es generalizing s with
  | nil => simp [run, openMediaPayloads, forwardedPayloads]
  | cons e es ih =>
      simp only [run, openMediaPayloads, forwardedPayloads_append]
      rw [step_forward, ih]

/-- Claim C8: when no start event resolves tenant settings with a
userId, the call performs no backend booking request, every
book_appointment tool output is a failure, no durable appointment id is
recorded, and the appointment_booked outcome is unreachable. -/
theorem no_tenant_no_booking (es : List Event)
    (h : es.all (fun e => !startHasUserId e) = true) :
    ((run initSession es).2.all (fun eff => !isBookRequest eff) = true)
    ∧ ((run initSession es).2.all bookOutputsFail = true)
    ∧ (hasAppointmentId (run initSession es).1 = false)
    ∧ ((run initSession es).2.all (fun eff => !isBookedWebhook eff) = true) :=
  run_noUser es initSession h rfl rfl

/-- Witness for C8 on the no-tenant booking scenario. -/
theorem no_tenant_no_booking_witness :
    ((run initSession noTenantTrace).2.all (fun eff => !isBookRequest eff) = true)
    ∧ ((run initSession noTenantTrace).2.all bookOutputsFail = true)
    ∧ (hasAppointmentId (run initSession noTenantTrace).1 = false)
    ∧ ((run initSession noTenantTrace).2.all (fun eff => !isBookedWebhook eff) = true) :=
  no_tenant_no_booking noTenantTrace (by decide)

/-- The implemented normalization agrees with the spec-worded one:
trim, uppercase, strip one leading hash symbol. -/
theorem cleanOrderId_eq_spec (oid : Option String) :
    cleanOrderId oid = specNormalizeOrderId oid := by
  cases oid with
  | none => decide
  | some v => rfl

/-- Claim C9 (amended): lookup_order_status queries the backend with
the normalized identifier and returns a status summary on success, the
speakable not-found message on a non-ok response, and a distinct
transient-trouble message when the lookup throws; it never raises and
leaves the session unchanged. -/
theorem order_lookup_behavior (s : Session) (oid : Option String) (b : OrderResp) :
    handleOrder s oid b
      = (s, specOrderResult (specNormalizeOrderId oid) b,
         [Effect.orderLookupRequest (specNormalizeOrderId oid)]) := by
  rw [← cleanOrderId_eq_spec]
  cases b <;> simp [handleOrder, specOrderResult]

/-- Counterexample to claim C9: on a thrown lookup the returned message
is the transient-trouble message, not the not-found message. -/
theorem lookup_error_message_not_notfound :
    ((handleOrder initSession (some " #ord-77 ") OrderResp.exn).2.1.success = false)
    ∧ ((handleOrder initSession (some " #ord-77 ") OrderResp.exn).2.1.message = troubleMsg)
    ∧ ¬((handleOrder initSession (some " #ord-77 ") OrderResp.exn).2.1.message
        = notFoundMsg (cleanOrderId (some " #ord-77 "))) := by
  decide

/-- Claim C10: an unknown tool name yields a generic failure result,
leaves the session state unchanged and emits no terminating effect, so
a malformed tool call never ends the call. -/
theorem unknown_tool_returns_failure (s : Session) (fname : String)
    (h : s.aiState = AiState.sockOpen) :
    step s (Event.functionCall (ToolCall.unknown fname))
      = (s, [Effect.toolOutput ToolKind.unknownTool
               { success := false, message := "Unknown function" },
             Effect.responseCreate]) := by
  simp [step, h, handleFunctionCall, toolKind]

/-- Witness for C10 on an open session and a made-up tool name. -/
theorem unknown_tool_returns_failure_witness :
    step openAiSession (Event.functionCall (ToolCall.unknown "transfer_call"))
      = (openAiSession,
         [Effect.toolOutput ToolKind.unknownTool
            { success := false, message := "Unknown function" },
          Effect.responseCreate]) :=
  unknown_tool_returns_failure openAiSession "transfer_call" rfl

end Talkertive
